import Mathlib

/-!
Shallow embedding of the Transfer & Relocation Engine of
`src/lib/ArtifactoryClient.js` (an HTTP client for an artifact repository).

HTTP traffic and the local filesystem are modelled as explicit parameters:
each operation receives the responses the server would return and the
filesystem facts it would observe, and returns the operation's outcome
(`Except Err`) together with the ordered trace of side effects (`List Event`)
the JavaScript code performs on that run.
-/

/-- Outcome of one HTTP request as the code observes it: `res.ok` and
`res.status` of a node-fetch response. -/
structure Response where
  ok : Bool
  status : Nat
deriving DecidableEq, Repr

/-- The client instance; `url` is the base url stored by the constructor
(every request url is `this.url + api(params)`, built by `_fetch`). -/
structure Client where
  url : String
deriving DecidableEq, Repr

/-- Observable side effects of a run, in program order. -/
inductive Event where
  | request (method : String) (url : String)
  | openReadStream (source : String)
  | openWriteStream (path : String)
  | md5 (path : String)
deriving DecidableEq, Repr

/-- Every throw site of the engine. Sites that throw `new Error(...)` are named
after the condition they report; sites whose `throw` dereferences an unbound
JavaScript identifier are modelled as `referenceError` with that identifier,
because evaluating the template literal raises the ReferenceError before any
`Error` object is constructed. -/
inductive Err where
  | sourceNotFound (file : String)
  | destinationExists
  | uploadRejected (status : Nat)
  | destinationDirMissing (file : String)
  | downloadRejected (status : Nat)
  | downloadWriteFailed
  | createFolderRejected (status : Nat)
  | moveRejected (status : Nat)
  | emptySourceDirectory (dir : String)
  | deleteRejected (status : Nat)
  | referenceError (name : String)
deriving DecidableEq, Repr

/-- JavaScript template interpolation of a boolean. -/
def jsBool : Bool → String
  | true => "true"
  | false => "false"

/-- Route `filePath: (\x7bpath\x7d) => '/'+path`. -/
def API.filePath (path : String) : String := "/" ++ path

/-- Route `getFileInfo`. -/
def API.getFileInfo (path : String) : String := "/api/storage/" ++ path

/-- Route `downloadFolder`. -/
def API.downloadFolder (path archiveType : String) : String :=
  "/api/archive/download/" ++ path ++ "?archiveType=" ++ archiveType

/-- Route `moveItem`, character for character from the source: the template is
`/api/move/$\x7bsrcPath\x7d?to=/$\x7bdstPath\x7d?dry=$\x7bdry\x7d` — note the
second `?` (not `&`) before `dry`, and the `/` prepended to `dstPath`.
The destructuring default `dry = false` applies when the caller passed no
dryrun value (JavaScript `undefined`), modelled as `none`. -/
def API.moveItem (srcPath dstPath : String) (dry : Option Bool) : String :=
  "/api/move/" ++ srcPath ++ "?to=/" ++ dstPath ++ "?dry=" ++ jsBool (dry.getD false)

/-- JavaScript test `path[path.length - 1] === '/'`: the last character equals
the separator; for the empty string `path[-1]` is `undefined`, which compares
unequal to `'/'`. Shared by `getFolderInfo`, `createFolder`, `deleteFolder`,
`moveItem` and `moveItems`. -/
def endsWithSep (path : String) : Bool :=
  match path.data.reverse with
  | c :: _ => c == '/'
  | [] => false

/-- The normalization `if (path[path.length - 1] !== '/') path = path + '/'`
inlined by every directory-oriented operation. -/
def asDirectory (path : String) : String :=
  if endsWithSep path then path else path ++ "/"

/-- Number of consecutive separators at the end of a path; formalizes the
phrase "carries exactly one trailing separator". -/
def trailingSepCount (path : String) : Nat :=
  (path.data.reverse.takeWhile fun c => c == '/').length

/-- The regex test `fileToUploadPath.match(/^https?:\/\//i)`. -/
def isRemoteUrl (s : String) : Bool :=
  List.isPrefixOf "http://".data (s.data.map Char.toLower)
    || List.isPrefixOf "https://".data (s.data.map Char.toLower)

/-- One entry of FolderInfo's `children` array: `uri` and `folder`. -/
structure FolderChild where
  uri : String
  folder : Bool
deriving DecidableEq, Repr

/-- One record of the server's FileInfo / FolderInfo JSON, restricted to the
fields the engine reads: `checksums.md5` and `children`. A JSON object with
no `children` field is `children = none` (the JavaScript truthiness test
`!result.children`); an empty `children` array is `some []`, which is truthy. -/
structure FileInfo where
  md5 : String
  children : Option (List FolderChild)
deriving DecidableEq, Repr

/-- `isPathExists(path)`: a HEAD request to the `filePath` route, resolving to
`res.ok`. -/
def isPathExists (c : Client) (path : String) (res : Response) :
    Bool × List Event :=
  (res.ok, [Event.request "HEAD" (c.url ++ API.filePath path)])

/-- `getFileInfo(path)`: a GET to the storage route; on success it resolves to
the parsed body. On a non-ok response the source's throw site is
`throw new Error(response.statusCode)`, but the local variable holding the
response is named `res`, so evaluating `response` raises a ReferenceError. -/
def getFileInfo (c : Client) (path : String) (res : Response) (info : FileInfo) :
    Except Err FileInfo × List Event :=
  let ev := [Event.request "GET" (c.url ++ API.getFileInfo path)]
  (if res.ok then .ok info else .error (.referenceError "response"), ev)

/-- `getFolderInfo(path)`: normalizes the path to directory form, then
delegates to `getFileInfo`. -/
def getFolderInfo (c : Client) (path : String) (res : Response) (info : FileInfo) :
    Except Err FileInfo × List Event :=
  getFileInfo c (asDirectory path) res info

/-- `createFolder(path)`: normalizes to directory form, issues a PUT to the
`filePath` route, throws `Could not create folder: status` on non-ok. -/
def createFolder (c : Client) (path : String) (res : Response) :
    Except Err Unit × List Event :=
  let dir := asDirectory path
  let ev := [Event.request "PUT" (c.url ++ API.filePath dir)]
  (if res.ok then .ok () else .error (.createFolderRejected res.status), ev)

/-- `_deletePath(path)`: DELETE to the `filePath` route. -/
def _deletePath (c : Client) (path : String) (res : Response) :
    Except Err Unit × List Event :=
  let ev := [Event.request "DELETE" (c.url ++ API.filePath path)]
  (if res.ok then .ok () else .error (.deleteRejected res.status), ev)

/-- `deleteFolder(path)`: normalize to directory form, then `_deletePath`. -/
def deleteFolder (c : Client) (path : String) (res : Response) :
    Except Err Unit × List Event :=
  _deletePath c (asDirectory path) res

/-- `deleteFile(path)`: `_deletePath` on the path unchanged. -/
def deleteFile (c : Client) (path : String) (res : Response) :
    Except Err Unit × List Event :=
  _deletePath c path res

/-- `_moveItem(srcPath, dstPath, dryrun)`: a single POST to the `moveItem`
route; throws the status on non-ok. -/
def _moveItem (c : Client) (srcPath dstPath : String) (dryrun : Option Bool)
    (res : Response) : Except Err Unit × List Event :=
  let ev := [Event.request "POST" (c.url ++ API.moveItem srcPath dstPath dryrun)]
  (if res.ok then .ok () else .error (.moveRejected res.status), ev)

/-- `moveItem(srcPath, dstPath, dryrun)`: when `dstPath` ends with the
separator, first `try { await this.createFolder(dstPath) } catch(e) {}` —
the request is issued but its outcome is discarded — then delegate to
`_moveItem`. `createRes` is the response the creation attempt would get. -/
def moveItem (c : Client) (srcPath dstPath : String) (dryrun : Option Bool)
    (createRes moveRes : Response) : Except Err Unit × List Event :=
  let pre := if endsWithSep dstPath then (createFolder c dstPath createRes).2 else []
  let mv := _moveItem c srcPath dstPath dryrun moveRes
  (mv.1, pre ++ mv.2)

/-- `uploadFile(path, fileToUploadPath, forceUpload)`. Parameters after the
source's three: `fsExists` is `fs.existsSync` on the resolved local path
(`Path.resolve` is modelled as the identity), `headRes` answers the
`isPathExists` probe, `putRes` answers the upload PUT. Opening the source —
a GET for a remote url, a read stream for a local file — happens after the
overwrite check and before the upload request. -/
def uploadFile (c : Client) (path fileToUploadPath : String) (forceUpload : Bool)
    (fsExists : Bool) (headRes putRes : Response) :
    Except Err Unit × List Event :=
  let isRemote := isRemoteUrl fileToUploadPath
  if !isRemote && !fsExists then
    (.error (.sourceNotFound fileToUploadPath), [])
  else
    let probe := isPathExists c path headRes
    let fileExists := probe.1
    if fileExists && !forceUpload then
      (.error .destinationExists, probe.2)
    else
      let streamEv :=
        if isRemote then Event.request "GET" fileToUploadPath
        else Event.openReadStream fileToUploadPath
      let putEv := Event.request "PUT" (c.url ++ API.filePath path)
      let tr := probe.2 ++ [streamEv, putEv]
      if putRes.ok then (.ok (), tr)
      else (.error (.uploadRejected putRes.status), tr)

/-- `downloadFile(path, destinationFile, checkFileIntegrity)`. Parameters
after the source's three: `destDirExists` is `fs.existsSync` of the
destination's parent directory, `getRes` answers the GET, `streamOk` tells
whether the write stream finishes (`true`) or errors, `infoRes` and `info`
answer the `getFileInfo` call of the integrity step, and `localMd5` is the
digest `md5File` computes over the written file. On a digest mismatch the
source's throw site interpolates `options.url`, and `options` is unbound in
`downloadFile`, so the site raises a ReferenceError instead of the intended
checksum error. -/
def downloadFile (c : Client) (path destinationFile : String)
    (checkFileIntegrity : Bool) (destDirExists : Bool) (getRes : Response)
    (streamOk : Bool) (infoRes : Response) (info : FileInfo) (localMd5 : String) :
    Except Err Unit × List Event :=
  if !destDirExists then
    (.error (.destinationDirMissing destinationFile), [])
  else
    let getEv := Event.request "GET" (c.url ++ API.filePath path)
    if !getRes.ok then
      (.error (.downloadRejected getRes.status), [getEv])
    else
      let wEv := Event.openWriteStream destinationFile
      if !streamOk then
        (.error .downloadWriteFailed, [getEv, wEv])
      else if checkFileIntegrity then
        let gfi := getFileInfo c path infoRes info
        match gfi.1 with
        | .error e => (.error e, [getEv, wEv] ++ gfi.2)
        | .ok fileInfo =>
          let mdEv := Event.md5 destinationFile
          if localMd5 != fileInfo.md5 then
            (.error (.referenceError "options"), [getEv, wEv] ++ gfi.2 ++ [mdEv])
          else
            (.ok (), [getEv, wEv] ++ gfi.2 ++ [mdEv])
      else
        (.ok (), [getEv, wEv])

/-- `downloadFolder(path, destinationFile, archiveType)`: checks the local
destination directory, issues the archive GET, opens the write stream and
pipes the body into it. The response `res` is never inspected — there is no
`res.ok` / status check anywhere in this function. -/
def downloadFolder (c : Client) (path destinationFile archiveType : String)
    (destDirExists : Bool) (res : Response) (streamOk : Bool) :
    Except Err Unit × List Event :=
  if !destDirExists then
    (.error (.destinationDirMissing destinationFile), [])
  else
    let getEv := Event.request "GET" (c.url ++ API.downloadFolder path archiveType)
    let wEv := Event.openWriteStream destinationFile
    if streamOk then (.ok (), [getEv, wEv])
    else (.error .downloadWriteFailed, [getEv, wEv])

/-- `moveItems(srcPath, filterCb, dstPath, dryrun)`. After normalizing both
paths and listing the source folder, the code runs
`result.children.filter(i => !item.folder && item.uri)`: the callback's
parameter is `i` but its body reads `item`, an unbound identifier, so the
first invocation — on any non-empty children array — raises a ReferenceError.
With an empty children array the callback is never invoked and control
reaches `console.log` with `$\x7b totalToMove.length \x7d`, where
`totalToMove` is also unbound (the list is named `filesToMove`), raising a
ReferenceError there. In both cases no move request is ever issued; the
subsequent `filesToMove.map(... this._moveItem ...)` and `Promise.all` lines
are unreachable. -/
def moveItems (c : Client) (srcPath : String) (filterCb : Option (String → Bool))
    (dstPath : String) (dryrun : Option Bool) (folderRes : Response)
    (info : FileInfo) (createRes : Response) : Except Err Unit × List Event :=
  let src := asDirectory srcPath
  let dst := asDirectory dstPath
  let gfi := getFolderInfo c src folderRes info
  match gfi.1 with
  | .error e => (.error e, gfi.2)
  | .ok result =>
    match result.children with
    | none => (.error (.emptySourceDirectory src), gfi.2)
    | some cs =>
      let createEv := (createFolder c dst createRes).2
      let tr := gfi.2 ++ createEv
      match cs with
      | _ :: _ => (.error (.referenceError "item"), tr)
      | [] => (.error (.referenceError "totalToMove"), tr)

/-- Standard url query semantics, used to state what a request url carries:
the query string is everything after the first `?`; parameters are separated
by `&`; a parameter's name is what precedes its first `=`. -/
def splitFirstChar (c : Char) : List Char → Option (List Char × List Char)
  | [] => none
  | x :: xs =>
    if x = c then some ([], xs)
    else
      match splitFirstChar c xs with
      | none => none
      | some (b, a) => some (x :: b, a)

/-- Splits a character list on every occurrence of `c`. -/
def splitOnCharAux (c : Char) : List Char → List Char → List (List Char)
  | [], acc => [acc.reverse]
  | x :: xs, acc =>
    if x = c then acc.reverse :: splitOnCharAux c xs []
    else splitOnCharAux c xs (x :: acc)

/-- Splits a character list on every occurrence of `c`. -/
def splitOnChar (c : Char) (l : List Char) : List (List Char) :=
  splitOnCharAux c l []

/-- The query parameters of a url, as name-value pairs. -/
def queryParams (url : String) : List (String × String) :=
  match splitFirstChar '?' url.data with
  | none => []
  | some (_, q) =>
    (splitOnChar '&' q).map fun p =>
      match splitFirstChar '=' p with
      | none => (String.mk p, "")
      | some (k, v) => (String.mk k, String.mk v)

theorem slash_data : "/".data = ['/'] := rfl

theorem endsWithSep_append_sep (p : String) : endsWithSep (p ++ "/") = true := by
  simp [endsWithSep, String.data_append, slash_data]

theorem endsWithSep_asDirectory (p : String) :
    endsWithSep (asDirectory p) = true := by
  unfold asDirectory
  cases h : endsWithSep p with
  | true => simp [h]
  | false => simp [h, endsWithSep_append_sep]

theorem asDirectory_of_endsWithSep (p : String) (h : endsWithSep p = true) :
    asDirectory p = p := by
  simp [asDirectory, h]

theorem asDirectory_idem (p : String) :
    asDirectory (asDirectory p) = asDirectory p :=
  asDirectory_of_endsWithSep _ (endsWithSep_asDirectory p)

theorem trailingSepCount_asDirectory (p : String) (h : endsWithSep p = false) :
    trailingSepCount (asDirectory p) = 1 := by
  have hd := h
  unfold endsWithSep at hd
  unfold asDirectory
  simp only [h, Bool.false_eq_true, if_false]
  unfold trailingSepCount
  rw [String.data_append, slash_data, List.reverse_append]
  cases hrev : p.data.reverse with
  | nil => simp
  | cons c cs =>
    rw [hrev] at hd
    simp only [beq_iff_eq] at hd
    simp [List.takeWhile_cons, hd]

theorem one_le_trailingSepCount (p : String) (h : endsWithSep p = true) :
    1 ≤ trailingSepCount p := by
  unfold endsWithSep at h
  unfold trailingSepCount
  cases hrev : p.data.reverse with
  | nil => rw [hrev] at h; simp at h
  | cons c cs =>
    rw [hrev] at h
    simp only [beq_iff_eq] at h
    subst h
    simp [List.takeWhile_cons]

/-- C9 (amended): for every path without a trailing separator the
normalization appends exactly one separator, and it is idempotent; every
normalized path carries at least one trailing separator — but only at least
one: a path that already ends in several separators is left unchanged, so the
directory-oriented operations do not always use a path with exactly one. -/
theorem asDirectory_normalization :
    (∀ p : String, endsWithSep p = false →
        asDirectory p = p ++ "/" ∧ trailingSepCount (asDirectory p) = 1)
    ∧ (∀ p : String, asDirectory (asDirectory p) = asDirectory p)
    ∧ (∀ p : String, 1 ≤ trailingSepCount (asDirectory p)) := by
  refine ⟨fun p h => ⟨by simp [asDirectory, h], trailingSepCount_asDirectory p h⟩,
    asDirectory_idem,
    fun p => one_le_trailingSepCount _ (endsWithSep_asDirectory p)⟩

/-- C9 witness: at the separator-free path "a" the normalization appends one
separator and the result carries exactly one. -/
theorem asDirectory_normalization_witness :
    asDirectory "a" = "a" ++ "/" ∧ trailingSepCount (asDirectory "a") = 1 :=
  asDirectory_normalization.1 "a" (by decide)

/-- C9 counterexample: the path "a//" already ends in two separators; the
normalization leaves it unchanged, so a directory-oriented operation invoked
on it uses a path carrying two trailing separators, not exactly one. -/
theorem asDirectory_two_trailing_seps :
    asDirectory "a//" = "a//" ∧ trailingSepCount (asDirectory "a//") = 2 := by
  constructor <;> decide

/-- C10: downloadFolder performs no success check on the archive response:
for every response — any status, ok or not — when the local destination
directory exists and the write stream finishes, the body is streamed into the
destination file and the operation resolves successfully; a rejected-status
error is never produced. -/
theorem downloadFolder_ignores_response_status
    (c : Client) (path destinationFile archiveType : String) (res : Response) :
    downloadFolder c path destinationFile archiveType true res true =
      (.ok (),
       [Event.request "GET" (c.url ++ API.downloadFolder path archiveType),
        Event.openWriteStream destinationFile]) := rfl

/-- C4: when the existence probe answers ok and forceUpload is false,
uploadFile fails with destinationExists and its whole effect trace is the
single HEAD probe: no source stream is opened, no remote GET and no upload
PUT is ever issued. The hypothesis (remote url, or a locally existing file)
is what lets the call reach the probe at all. -/
theorem uploadFile_no_overwrite
    (c : Client) (path fileToUploadPath : String) (fsExists : Bool)
    (headRes putRes : Response)
    (hsrc : (isRemoteUrl fileToUploadPath || fsExists) = true)
    (hhead : headRes.ok = true) :
    uploadFile c path fileToUploadPath false fsExists headRes putRes =
      (.error .destinationExists,
       [Event.request "HEAD" (c.url ++ API.filePath path)]) := by
  unfold uploadFile isPathExists
  have hguard : (!isRemoteUrl fileToUploadPath && !fsExists) = false := by
    cases hr : isRemoteUrl fileToUploadPath <;> cases hf : fsExists <;> simp_all
  simp [hguard, hhead]

/-- C4 witness: uploading the existing local file "a.bin" onto the occupied
server path "repo/a.bin" without forceUpload is refused after the HEAD probe
alone. -/
theorem uploadFile_no_overwrite_witness :
    uploadFile ⟨"http://art"⟩ "repo/a.bin" "a.bin" false true ⟨true, 200⟩ ⟨true, 201⟩ =
      (.error .destinationExists,
       [Event.request "HEAD" ("http://art" ++ API.filePath "repo/a.bin")]) :=
  uploadFile_no_overwrite ⟨"http://art"⟩ "repo/a.bin" "a.bin" true ⟨true, 200⟩
    ⟨true, 201⟩ (by simp) rfl

/-- C8: when the destination's parent directory exists and the GET response
is not ok, downloadFile fails with downloadRejected carrying the response
status, and its trace is the GET alone — the local write stream is never
opened, so the destination file is neither created nor modified. -/
theorem downloadFile_rejected_before_write
    (c : Client) (path destinationFile : String) (checkFileIntegrity : Bool)
    (getRes : Response) (streamOk : Bool) (infoRes : Response) (info : FileInfo)
    (localMd5 : String) (hres : getRes.ok = false) :
    downloadFile c path destinationFile checkFileIntegrity true getRes streamOk
        infoRes info localMd5 =
      (.error (.downloadRejected getRes.status),
       [Event.request "GET" (c.url ++ API.filePath path)]) := by
  unfold downloadFile
  simp [hres]

/-- C8 witness: a 404 on "repo/f.bin" rejects the download with status 404
before any write stream is opened. -/
theorem downloadFile_rejected_before_write_witness :
    downloadFile ⟨"http://art"⟩ "repo/f.bin" "out.bin" true true ⟨false, 404⟩ true
        ⟨true, 200⟩ ⟨"d41d8", none⟩ "d41d8" =
      (.error (.downloadRejected 404),
       [Event.request "GET" ("http://art" ++ API.filePath "repo/f.bin")]) :=
  downloadFile_rejected_before_write ⟨"http://art"⟩ "repo/f.bin" "out.bin" true
    ⟨false, 404⟩ true ⟨true, 200⟩ ⟨"d41d8", none⟩ "d41d8" rfl

/-- C3: for a directory-shaped destination, moveItem first issues the
folder-creation PUT, whose outcome — `createRes` does not occur on the right
hand side — is discarded, then issues exactly one move POST with the given
source, destination and dryrun; the call's outcome is decided by the move
response alone. -/
theorem moveItem_directory_target
    (c : Client) (srcPath dstPath : String) (dryrun : Option Bool)
    (createRes moveRes : Response) (h : endsWithSep dstPath = true) :
    moveItem c srcPath dstPath dryrun createRes moveRes =
      ((if moveRes.ok then .ok () else .error (.moveRejected moveRes.status)),
       [Event.request "PUT" (c.url ++ API.filePath dstPath),
        Event.request "POST" (c.url ++ API.moveItem srcPath dstPath dryrun)]) := by
  unfold moveItem createFolder _moveItem
  simp [h, asDirectory_of_endsWithSep dstPath h]

/-- C3 witness: moving "repo/a.txt" into the not-yet-existing "repo/dir/"
first attempts the folder creation (here answered 404 — and discarded), then
succeeds through the single move request. -/
theorem moveItem_directory_target_witness :
    moveItem ⟨"http://art"⟩ "repo/a.txt" "repo/dir/" (some false) ⟨false, 404⟩
        ⟨true, 200⟩ =
      (.ok (),
       [Event.request "PUT" ("http://art" ++ API.filePath "repo/dir/"),
        Event.request "POST"
          ("http://art" ++ API.moveItem "repo/a.txt" "repo/dir/" (some false))]) :=
  moveItem_directory_target ⟨"http://art"⟩ "repo/a.txt" "repo/dir/" (some false)
    ⟨false, 404⟩ ⟨true, 200⟩ (by decide)

/-- C2: evaluated at source "repo/a.txt", destination "repo/b.txt" and
dryRun true, the single move request's url is
`/api/move/repo/a.txt?to=/repo/b.txt?dry=true`; under url query semantics it
carries exactly one parameter, named "to", whose value is
"/repo/b.txt?dry=true" — the template's second `?` folds the dry flag into
the to-value instead of opening a distinct `dry` parameter, so the request
carries neither the bare destination as `to` nor any `dry` parameter, and a
dryRun=true call is not transmitted as a validation-only move. -/
theorem moveItem_dry_not_distinct_param :
    (_moveItem ⟨"http://art"⟩ "repo/a.txt" "repo/b.txt" (some true) ⟨true, 200⟩).2 =
      [Event.request "POST" "http://art/api/move/repo/a.txt?to=/repo/b.txt?dry=true"]
    ∧ queryParams "http://art/api/move/repo/a.txt?to=/repo/b.txt?dry=true" =
      [("to", "/repo/b.txt?dry=true")] := by
  refine ⟨rfl, by decide⟩

/-- C1: over a source listing with the three file children a.zip, b.txt,
c.zip and the filter `name => name.endsWith('.zip')`, moveItems issues zero
move requests: selecting the candidates runs
`result.children.filter(i => !item.folder && item.uri)`, whose callback reads
the unbound identifier `item`, so the call fails with a ReferenceError right
after the listing and the swallowed destination-creation attempt — not with
two moves for a.zip and c.zip. -/
theorem moveItems_zip_batch_crashes :
    moveItems ⟨"http://art"⟩ "src/" (some fun name => name.endsWith ".zip") "dst/"
        none ⟨true, 200⟩
        ⟨"", some [⟨"/a.zip", false⟩, ⟨"/b.txt", false⟩, ⟨"/c.zip", false⟩]⟩
        ⟨true, 200⟩ =
      (.error (.referenceError "item"),
       [Event.request "GET" ("http://art" ++ API.getFileInfo "src/"),
        Event.request "PUT" ("http://art" ++ API.filePath "dst/")]) := rfl

/-- C7: a batch over a listing with one file child and no filter dispatches
no move at all: the candidate-selection callback crashes on the unbound
identifier `item`, so the batch fails with a ReferenceError although no
dispatched move failed — the Promise.all aggregation of the claim is dead
code and the batch never succeeds. -/
theorem moveItems_never_dispatches :
    moveItems ⟨"http://art"⟩ "pkgs/" none "archive/" (some false) ⟨true, 200⟩
        ⟨"", some [⟨"/x.bin", false⟩]⟩ ⟨true, 200⟩ =
      (.error (.referenceError "item"),
       [Event.request "GET" ("http://art" ++ API.getFileInfo "pkgs/"),
        Event.request "PUT" ("http://art" ++ API.filePath "archive/")]) := rfl

/-- C5 counterexample: a source listing whose children field is a present but
empty array has zero children, yet moveItems does not fail with the
empty-source error: the truthiness test `!result.children` accepts the empty
array, the destination-creation PUT is issued, and the call then fails with
the ReferenceError on `totalToMove`. -/
theorem moveItems_empty_children_array :
    moveItems ⟨"http://art"⟩ "empty/" none "dst3/" none ⟨true, 200⟩ ⟨"", some []⟩
        ⟨true, 200⟩ =
      (.error (.referenceError "totalToMove"),
       [Event.request "GET" ("http://art" ++ API.getFileInfo "empty/"),
        Event.request "PUT" ("http://art" ++ API.filePath "dst3/")]) := rfl

/-- C5 (amended): when the source listing carries no children field at all —
the only case the truthiness test `!result.children` catches — moveItems
fails with emptySourceDirectory and its trace is the listing GET alone:
no destination-creation attempt and no move request is issued. -/
theorem moveItems_absent_children
    (c : Client) (srcPath : String) (filterCb : Option (String → Bool))
    (dstPath : String) (dryrun : Option Bool) (folderRes : Response)
    (md5 : String) (createRes : Response) (hok : folderRes.ok = true) :
    moveItems c srcPath filterCb dstPath dryrun folderRes ⟨md5, none⟩ createRes =
      (.error (.emptySourceDirectory (asDirectory srcPath)),
       [Event.request "GET" (c.url ++ API.getFileInfo (asDirectory srcPath))]) := by
  unfold moveItems getFolderInfo getFileInfo
  simp [hok, asDirectory_idem]

/-- C5 witness: a listing of "src4" without a children field fails with the
empty-source error for the normalized directory "src4/", after the listing
GET alone. -/
theorem moveItems_absent_children_witness :
    moveItems ⟨"http://art"⟩ "src4" none "dst4" none ⟨true, 200⟩ ⟨"", none⟩
        ⟨true, 200⟩ =
      (.error (.emptySourceDirectory (asDirectory "src4")),
       [Event.request "GET" ("http://art" ++ API.getFileInfo (asDirectory "src4"))]) :=
  moveItems_absent_children ⟨"http://art"⟩ "src4" none "dst4" none ⟨true, 200⟩ ""
    ⟨true, 200⟩ rfl

/-- C6: with integrity checking on and a server digest "aaa" different from
the locally computed "bbb", downloadFile fails — but not with a checksum
error carrying the two digests: the throw site's message template reads
`options.url` and `options` is unbound in downloadFile, so the site raises a
ReferenceError carrying no digests. The trace shows the file had been
written (and is not deleted afterwards): write stream, FileInfo GET, local
md5 — and nothing after them. -/
theorem downloadFile_mismatch_reference_error :
    downloadFile ⟨"http://art"⟩ "repo/f.bin" "out.bin" true true ⟨true, 200⟩ true
        ⟨true, 200⟩ ⟨"aaa", none⟩ "bbb" =
      (.error (.referenceError "options"),
       [Event.request "GET" ("http://art" ++ API.filePath "repo/f.bin"),
        Event.openWriteStream "out.bin",
        Event.request "GET" ("http://art" ++ API.getFileInfo "repo/f.bin"),
        Event.md5 "out.bin"]) := rfl
